import Mathlib

/-!
Verification of the calendar-integration and lead-filtering layer of a
real-estate lead-management application.

The development shallowly embeds four source files:
* `src/lib/googleCalendar.ts` — the `GoogleCalendarService` singleton
  (lazy script load, OAuth sign-in, event CRUD against the provider);
* `src/components/communication/CalendarEventModal.tsx` — the event
  scheduling form (field decomposition/recomposition, payload
  construction, reminder toggling, submit flow);
* the disconnect API route (bearer-token validation, no revocation);
* the leads page (permission filter composed with predicate filters and
  a sort).

Browser/provider behaviour that the code merely invokes (script load
success, auth-library initialization, the interactive sign-in outcome,
the live session flag) is modelled as an explicit environment record
threaded through the operations.  JavaScript `Date` arithmetic is
modelled on instants measured in seconds since the Unix epoch, using the
standard proleptic-Gregorian civil-calendar conversions that ECMAScript
`Date` specifies.
-/

/-! ### String helpers

Character-list versions of the string operations the source uses
(`String.prototype.startsWith`, `includes`, `toLowerCase`), written so
they reduce under kernel evaluation. -/

/-- `pat` is a prefix of `s` (char-list form of JS `startsWith`). -/
def isPref : List Char → List Char → Bool
  | [], _ => true
  | _ :: _, [] => false
  | a :: as, b :: bs => a = b && isPref as bs

/-- `pat` occurs contiguously inside `s` (char-list form of JS `includes`). -/
def listContainsSub (pat : List Char) : List Char → Bool
  | [] => pat.isEmpty
  | c :: rest => isPref pat (c :: rest) || listContainsSub pat rest

/-- JS `String.prototype.includes`. -/
def strIncludes (s pat : String) : Bool :=
  listContainsSub pat.data s.data

/-- JS `String.prototype.toLowerCase` (ASCII-level model). -/
def strToLower (s : String) : String :=
  s.map Char.toLower

/-- JS `String.prototype.startsWith`. -/
def strStartsWith (s pat : String) : Bool :=
  isPref pat.data s.data

/-! ### Model of ECMAScript `Date`

An instant is an integer count of seconds since the Unix epoch (the
source works in milliseconds; every quantity the claims touch is
second-aligned).  A runtime time zone is its offset east of UTC in
minutes.  `civilFromDays`/`daysFromCivil` are the standard
proleptic-Gregorian conversions between a day number (days since
1970-01-01) and a calendar date, which is exactly the calendar
ECMAScript `Date` specifies. -/

/-- A calendar date, as displayed in the modal's `date` input. -/
structure DateField where
  year : Int
  month : Int
  day : Int
deriving DecidableEq, Repr

/-- A wall-clock time of day at minute precision, as displayed in the
modal's `time` inputs (`toTimeString().slice(0, 5)` keeps `HH:MM`). -/
structure TimeField where
  hour : Int
  minute : Int
deriving DecidableEq, Repr

/-- Civil date of a day number (days since 1970-01-01), proleptic
Gregorian. -/
def civilFromDays (z0 : Int) : DateField :=
  let z := z0 + 719468
  let era := Int.fdiv z 146097
  let doe := Int.emod z 146097
  let yoe := (doe - doe / 1460 + doe / 36524 - doe / 146096) / 365
  let y := yoe + era * 400
  let doy := doe - (365 * yoe + yoe / 4 - yoe / 100)
  let mp := (5 * doy + 2) / 153
  let d := doy - (153 * mp + 2) / 5 + 1
  let m := mp + (if mp < 10 then 3 else -9)
  ⟨y + (if m ≤ 2 then 1 else 0), m, d⟩

/-- Day number (days since 1970-01-01) of a civil date, proleptic
Gregorian. -/
def daysFromCivil (df : DateField) : Int :=
  let y := if df.month ≤ 2 then df.year - 1 else df.year
  let era := Int.fdiv y 400
  let yoe := Int.emod y 400
  let doy := (153 * (df.month + (if 2 < df.month then -3 else 9)) + 2) / 5 + df.day - 1
  let doe := yoe * 365 + yoe / 4 - yoe / 100 + doy
  era * 146097 + doe - 719468

/-- Seconds in a day. -/
def secPerDay : Int := 86400

/-- The UTC calendar date of an instant:
`startDate.toISOString().split('T')[0]` in the modal's decomposition. -/
def decomposeDate (t : Int) : DateField :=
  civilFromDays (Int.fdiv t secPerDay)

/-- The local wall-clock `HH:MM` of an instant in a runtime zone with
offset `tz` minutes east of UTC: `toTimeString().slice(0, 5)` in the
modal's decomposition (seconds are dropped by the slice). -/
def decomposeTime (tz : Int) (t : Int) : TimeField :=
  let lsec := Int.emod (t + tz * 60) secPerDay
  ⟨lsec / 3600, Int.emod lsec 3600 / 60⟩

/-- The instant denoted by `new Date(`${date}T${time}`)` in a runtime
zone with offset `tz` minutes east of UTC: a zone-less date-time string
is interpreted as local wall-clock time. -/
def recomposeDateTime (tz : Int) (df : DateField) (tf : TimeField) : Int :=
  daysFromCivil df * secPerDay + tf.hour * 3600 + tf.minute * 60 - tz * 60

example : daysFromCivil ⟨1970, 1, 1⟩ = 0 := by decide
example : civilFromDays 0 = ⟨1970, 1, 1⟩ := by decide
example : daysFromCivil ⟨2024, 6, 1⟩ = 19875 := by decide
example : civilFromDays 19875 = ⟨2024, 6, 1⟩ := by decide

/-! ### `GoogleCalendarService` (src/lib/googleCalendar.ts)

The mutable singleton carries one field, the private `isInitialized`
flag.  Everything else the service consults lives in the browser/vendor
environment (`window.gapi`, the script loader, the interactive consent
flow), modelled by `GapiEnv`. -/

namespace GoogleCalendar

/-- The service's own mutable state: the private `isInitialized` flag. -/
structure ConnectorState where
  isInitialized : Bool
deriving DecidableEq, Repr

/-- The browser/vendor environment an operation runs against:
* `scriptLoads` — whether the `apis.google.com` script's `onload` (vs
  `onerror`) fires;
* `authInitOk` — whether `gapi.auth2.init({client_id})` resolves;
* `authSignedIn` — the auth instance's live `isSignedIn.get()` flag;
* `signInOutcome` — the interactive `authInstance.signIn({scope})` flow:
  `none` if it rejects (denied consent, closed popup), `some b` if it
  resolves with a user whose `isSignedIn()` is `b`. -/
structure GapiEnv where
  scriptLoads : Bool
  authInitOk : Bool
  authSignedIn : Bool
  signInOutcome : Option Bool
deriving DecidableEq, Repr

/-- The ways `initializeGoogleAPI` can reject. -/
inductive InitError
  | scriptLoadFailed
  | authInitFailed
deriving DecidableEq, Repr

/-- Outcome of one `initializeGoogleAPI()` call: the promise result, the
service state afterwards, and whether the script-load / auth-init
sequence was started at all. -/
structure InitResult where
  result : Except InitError Unit
  state : ConnectorState
  ranScriptLoad : Bool
deriving Repr

/-- `initializeGoogleAPI()`: returns at once if `isInitialized` is set;
otherwise appends the script tag and runs load → `gapi.load('auth2')`
→ `auth2.init`, setting the flag only on success and rejecting on a
script or auth-init failure (state unchanged on failure). -/
def initializeGoogleAPI (env : GapiEnv) (s : ConnectorState) : InitResult :=
  if s.isInitialized then ⟨Except.ok (), s, false⟩
  else if !env.scriptLoads then ⟨Except.error InitError.scriptLoadFailed, s, true⟩
  else if !env.authInitOk then ⟨Except.error InitError.authInitFailed, s, true⟩
  else ⟨Except.ok (), ⟨true⟩, true⟩

/-- The ways the body of `signIn()`'s `try` block can throw. -/
inductive SignInError
  | initFailed (e : InitError)
  | authRejected
deriving DecidableEq, Repr

/-- The body of `signIn()`'s `try` block: await initialization, then the
interactive consent flow; on resolution the result is
`user.isSignedIn()`.  Errors carry the service state at the throw
point. -/
def signInAttempt (env : GapiEnv) (s : ConnectorState) :
    Except (SignInError × ConnectorState) (Bool × ConnectorState) :=
  match initializeGoogleAPI env s with
  | ⟨Except.error e, s1, _⟩ => Except.error (SignInError.initFailed e, s1)
  | ⟨Except.ok _, s1, _⟩ =>
    match env.signInOutcome with
    | none => Except.error (SignInError.authRejected, s1)
    | some b => Except.ok (b, s1)

/-- `signIn()`: the `try` body with its `catch` — any failure is logged
and mapped to `false`, never re-thrown. -/
def signIn (env : GapiEnv) (s : ConnectorState) : Bool × ConnectorState :=
  match signInAttempt env s with
  | Except.ok r => r
  | Except.error (_, s1) => (false, s1)

/-- `isSignedIn()`: `false` outright if the flag is unset, otherwise the
auth instance's live `isSignedIn.get()`. -/
def isSignedIn (env : GapiEnv) (s : ConnectorState) : Bool :=
  if !s.isInitialized then false
  else env.authSignedIn

/-- An event record as the provider returns it (only the fields the
application reads). -/
structure ProviderEvent where
  id : String
deriving DecidableEq, Repr

/-- The `events.list` request `getEvents(timeMin?, timeMax?)` sends:
`timeMin: timeMin || new Date().toISOString()` (JS `||`, so an absent or
empty string falls back to `now`), fixed `calendarId`, `showDeleted`,
`singleEvents` and `orderBy`. -/
structure EventsListRequest where
  calendarId : String
  timeMin : String
  timeMax : Option String
  showDeleted : Bool
  singleEvents : Bool
  orderBy : String
deriving DecidableEq, Repr

/-- Request construction inside `getEvents`. -/
def getEventsRequest (now : String) (timeMin timeMax : Option String) : EventsListRequest :=
  { calendarId := "primary"
    timeMin := match timeMin with
      | none => now
      | some t => if t = "" then now else t
    timeMax := timeMax
    showDeleted := false
    singleEvents := true
    orderBy := "startTime" }

/-- The provider's `events.list` response body: the `items` field may be
absent. -/
structure EventsListResponse where
  items : Option (List ProviderEvent)
deriving DecidableEq, Repr

/-- Resolution inside `getEvents`: `resolve(response.result.items || [])`. -/
def getEventsResult (resp : EventsListResponse) : List ProviderEvent :=
  resp.items.getD []

end GoogleCalendar

/-! ### `CalendarEventModal` (src/components/communication/CalendarEventModal.tsx)

The form's field state, the decomposition of a stored event into fields
(the `useEffect`), the provider payload built on submit, reminder
toggling, and the submit flow itself. -/

namespace EventModal

/-- The application's local event record (`CalendarEvent` from
`types/communication`), restricted to the fields this component reads
or writes.  Timestamps are instants in seconds since the epoch. -/
structure CalendarEvent where
  id : String
  title : String
  description : Option String
  startDateTime : Int
  endDateTime : Int
  attendees : Option (List String)
  reminders : Option (List Int)
  leadId : Option String
  googleEventId : Option String
  createdBy : String
  createdAt : Int
  updatedAt : Int
deriving DecidableEq, Repr

/-- The modal's `formData` state.  The date and time inputs hold either
a parsed value or the empty string (`none`). -/
structure FormData where
  title : String
  description : String
  date : Option DateField
  startTime : Option TimeField
  endTime : Option TimeField
  location : String
  attendees : List String
  reminders : List Int
deriving DecidableEq, Repr

/-- The `useEffect` that pre-populates `formData` from an existing
event: the date field is the UTC date of the start
(`toISOString().split('T')[0]`), the time fields are local wall-clock
`HH:MM` (`toTimeString().slice(0, 5)`), and `||` defaults fill
description, attendees and reminders. -/
def populateFormFromEvent (tz : Int) (e : CalendarEvent) : FormData :=
  { title := e.title
    description := e.description.getD ""
    date := some (decomposeDate e.startDateTime)
    startTime := some (decomposeTime tz e.startDateTime)
    endTime := some (decomposeTime tz e.endDateTime)
    location := ""
    attendees := e.attendees.getD []
    reminders := e.reminders.getD [10] }

/-- An attendee entry of the provider payload. -/
structure Attendee where
  email : String
deriving DecidableEq, Repr

/-- A reminder override of the provider payload. -/
structure ReminderOverride where
  method : String
  minutes : Int
deriving DecidableEq, Repr

/-- The `reminders` object of the provider payload. -/
structure EventReminders where
  useDefault : Bool
  overrides : List ReminderOverride
deriving DecidableEq, Repr

/-- A `start`/`end` entry of the provider payload: the instant denoted
by the composed `Date` (`none` when the inputs do not parse, i.e. the
`Date` is invalid and `toISOString()` throws), plus the runtime zone
(`Intl.DateTimeFormat().resolvedOptions().timeZone`), carried here as
its offset in minutes east of UTC. -/
structure EventDateTime where
  dateTime : Option Int
  timeZone : Int
deriving DecidableEq, Repr

/-- The provider payload `handleSubmit` builds. -/
structure EventData where
  summary : String
  description : String
  start : EventDateTime
  end_ : EventDateTime
  attendees : List Attendee
  reminders : EventReminders
  location : String
deriving DecidableEq, Repr

/-- The `eventData` object built in `handleSubmit`: start/end are
`new Date(`${date}T${time}`)` (local wall-clock interpretation) in the
runtime zone `tz`, attendees map each email to `{email}`, and reminders
are `{useDefault: false, overrides: reminders.map(m => {method:
"popup", minutes: m})}`. -/
def eventData (tz : Int) (f : FormData) : EventData :=
  { summary := f.title
    description := f.description
    start := ⟨f.date.bind fun d => f.startTime.map fun t => recomposeDateTime tz d t, tz⟩
    end_ := ⟨f.date.bind fun d => f.endTime.map fun t => recomposeDateTime tz d t, tz⟩
    attendees := f.attendees.map fun email => ⟨email⟩
    reminders := ⟨false, f.reminders.map fun minutes => ⟨"popup", minutes⟩⟩
    location := f.location }

/-- `toggleReminder`: flip membership of `minutes` in the reminder
list — filter it out if present, append it otherwise. -/
def toggleReminder (minutes : Int) (reminders : List Int) : List Int :=
  if reminders.contains minutes then reminders.filter fun r => r != minutes
  else reminders ++ [minutes]

/-- `resetForm`. -/
def resetForm : FormData :=
  { title := ""
    description := ""
    date := none
    startTime := none
    endTime := none
    location := ""
    attendees := []
    reminders := [10] }

/-- Which provider operation `handleSubmit` invoked. -/
inductive ProviderCall
  | insert (payload : EventData)
  | update (eventId : String) (payload : EventData)
deriving DecidableEq, Repr

/-- Which parent callback `handleSubmit` fired, with the local record it
passed. -/
inductive SubmitCallback
  | created (e : CalendarEvent)
  | updated (e : CalendarEvent)
deriving DecidableEq, Repr

/-- Observable outcome of one `handleSubmit` pass. -/
structure SubmitResult where
  signInTriggered : Bool
  providerCall : Option ProviderCall
  callback : Option SubmitCallback
  formAfter : FormData
  modalOpenAfter : Bool
deriving DecidableEq, Repr

/-- `handleSubmit`: when not connected, trigger the sign-in flow and
return.  Otherwise build the payload (an invalid composed `Date` makes
`toISOString()` throw, landing in the `catch` with nothing sent), call
`updateEvent` when editing an event that has a `googleEventId` and
`createEvent` otherwise; on provider failure the error is logged and
the form stays as it was; on success the local record is built (a fresh
`event-${Date.now()}` id when creating), the matching callback fires,
the dialog closes and the form resets. -/
def handleSubmit (connected : Bool) (form : FormData) (event : Option CalendarEvent)
    (tz : Int) (leadId : Option String)
    (provider : Except Unit GoogleCalendar.ProviderEvent) (now : Int) : SubmitResult :=
  if !connected then ⟨true, none, none, form, true⟩
  else
    let payload := eventData tz form
    match payload.start.dateTime, payload.end_.dateTime with
    | some sdt, some edt =>
      let call := match event with
        | some e => match e.googleEventId with
          | some gid => ProviderCall.update gid payload
          | none => ProviderCall.insert payload
        | none => ProviderCall.insert payload
      match provider with
      | Except.error _ => ⟨false, some call, none, form, true⟩
      | Except.ok pe =>
        let newEvent : CalendarEvent :=
          { id := (event.map fun e => e.id).getD ("event-" ++ toString now)
            title := form.title
            description := some form.description
            startDateTime := sdt
            endDateTime := edt
            attendees := some form.attendees
            reminders := some form.reminders
            leadId := leadId
            googleEventId := some pe.id
            createdBy := "current-user"
            createdAt := now
            updatedAt := now }
        let cb := match event with
          | some _ => SubmitCallback.updated newEvent
          | none => SubmitCallback.created newEvent
        ⟨false, some call, some cb, resetForm, false⟩
    | _, _ => ⟨false, none, none, form, true⟩

end EventModal

/-! ### Disconnect API route (src/unnamed/part_000)

The `POST` handler checks the `Authorization` header, verifies the
bearer token with `jwt.verify` (modelled as a boolean oracle — a thrown
verification error is `false`), and answers.  The body performs no
revocation and touches no store; the effects record makes that
observable. -/

namespace DisconnectRoute

/-- An HTTP response as the handler builds it. -/
structure HttpResponse where
  status : Nat
  message : String
deriving DecidableEq, Repr

/-- The side effects the route's comment says production would perform;
the handler as written performs neither. -/
structure DisconnectEffects where
  revokedProviderTokens : Bool
  clearedAccountLinkage : Bool
deriving DecidableEq, Repr

/-- The `POST` handler: 401 `Authentication required` when the header is
missing or not `Bearer `-prefixed; otherwise verify `substring(7)` —
401 `Invalid token` when verification throws, success message when it
passes.  No effect in any branch. -/
def POST (verifyToken : String → Bool) (authHeader : Option String) :
    HttpResponse × DisconnectEffects :=
  match authHeader with
  | none => (⟨401, "Authentication required"⟩, ⟨false, false⟩)
  | some h =>
    if !strStartsWith h "Bearer " then (⟨401, "Authentication required"⟩, ⟨false, false⟩)
    else
      let token := h.drop 7
      if verifyToken token then
        (⟨200, "Google account disconnected successfully"⟩, ⟨false, false⟩)
      else (⟨401, "Invalid token"⟩, ⟨false, false⟩)

end DisconnectRoute

/-! ### Leads page (src/unnamed/part_001)

The permission filter (`permissionService.filterLeadsForUser`, whose
implementation lives outside the embedded files) is an abstract
function parameter; `filteredAndSortedLeads` filters its output with the
predicate chain and sorts with the selected comparator. -/

namespace LeadsPage

/-- A lead's priority score (`'High' | 'Medium' | 'Low'`). -/
inductive LeadScore
  | high
  | medium
  | low
deriving DecidableEq, Repr

/-- A lead record, restricted to the fields the page's filter and sort
read. -/
structure Lead where
  id : String
  name : String
  primaryEmail : String
  primaryPhone : String
  status : String
  source : String
  propertyType : String
  budgetRange : String
  assignedAgent : String
  leadScore : LeadScore
  createdAt : Int
deriving DecidableEq, Repr

/-- The page's filter state (`LeadFilters`); absent (or, for strings,
empty — JS falsiness) entries are inactive. -/
structure LeadFilters where
  search : Option String
  status : Option (List String)
  assignedAgent : Option String
  source : Option (List String)
  propertyType : Option (List String)
  budgetRange : Option String
  leadScore : Option (List LeadScore)
deriving DecidableEq, Repr

/-- The predicate body of the `filter` in `filteredAndSortedLeads`:
every active filter must accept the lead. -/
def matchesFilters (f : LeadFilters) (lead : Lead) : Bool :=
  (match f.search with
    | none => true
    | some s =>
      if s = "" then true
      else strIncludes
        (strToLower (lead.name ++ " " ++ lead.primaryEmail ++ " " ++ lead.primaryPhone))
        (strToLower s))
  && (match f.status with
    | none => true
    | some l => if 0 < l.length then l.contains lead.status else true)
  && (match f.assignedAgent with
    | none => true
    | some a => if a = "" then true else lead.assignedAgent == a)
  && (match f.source with
    | none => true
    | some l => if 0 < l.length then l.contains lead.source else true)
  && (match f.propertyType with
    | none => true
    | some l => if 0 < l.length then l.contains lead.propertyType else true)
  && (match f.budgetRange with
    | none => true
    | some b => if b = "" then true else lead.budgetRange == b)
  && (match f.leadScore with
    | none => true
    | some l => if 0 < l.length then l.contains lead.leadScore else true)

/-- The page's sort selector. -/
inductive SortOption
  | createdDesc
  | createdAsc
  | nameAsc
  | nameDesc
  | scoreHigh
  | scoreLow
deriving DecidableEq, Repr

/-- The numeric order `{High: 3, Medium: 2, Low: 1}` used by the score
sorts. -/
def scoreOrder : LeadScore → Int
  | LeadScore.high => 3
  | LeadScore.medium => 2
  | LeadScore.low => 1

/-- `String.prototype.localeCompare`, modelled as lexicographic
comparison. -/
def localeCompare (a b : String) : Int :=
  match compare a b with
  | Ordering.lt => -1
  | Ordering.eq => 0
  | Ordering.gt => 1

/-- The sort comparator of `filteredAndSortedLeads`. -/
def compareLeads (s : SortOption) (a b : Lead) : Int :=
  match s with
  | SortOption.createdDesc => b.createdAt - a.createdAt
  | SortOption.createdAsc => a.createdAt - b.createdAt
  | SortOption.nameAsc => localeCompare a.name b.name
  | SortOption.nameDesc => localeCompare b.name a.name
  | SortOption.scoreHigh => scoreOrder b.leadScore - scoreOrder a.leadScore
  | SortOption.scoreLow => scoreOrder a.leadScore - scoreOrder b.leadScore

/-- `userFilteredLeads`: the permission filter applied to the full lead
list.  `filterLeadsForUser` is the (abstract) permission service
method; `U` is the authenticated-user type. -/
def userFilteredLeads {U : Type} (filterLeadsForUser : List Lead → U → List Lead)
    (leads : List Lead) (user : U) : List Lead :=
  filterLeadsForUser leads user

/-- `filteredAndSortedLeads`: the permission-filtered list filtered by
the active predicates and sorted by the selected comparator. -/
def filteredAndSortedLeads {U : Type} (filterLeadsForUser : List Lead → U → List Lead)
    (leads : List Lead) (user : U) (filters : LeadFilters) (sortBy : SortOption) :
    List Lead :=
  ((userFilteredLeads filterLeadsForUser leads user).filter (matchesFilters filters)).mergeSort
    fun a b => decide (compareLeads sortBy a b ≤ 0)

end LeadsPage

/-! ### Concrete fixtures used by witnesses and concrete theorems -/

/-- A stored event with start `2024-06-01T09:00:00Z` and end
`2024-06-01T10:00:00Z` (seconds since the epoch). -/
def sampleEvent : EventModal.CalendarEvent :=
  { id := "evt-1"
    title := "Viewing"
    description := none
    startDateTime := 1717232400
    endDateTime := 1717236000
    attendees := none
    reminders := none
    leadId := none
    googleEventId := none
    createdBy := "current-user"
    createdAt := 0
    updatedAt := 0 }

example : decomposeDate sampleEvent.startDateTime = ⟨2024, 6, 1⟩ := by decide
example : decomposeTime 0 sampleEvent.startDateTime = ⟨9, 0⟩ := by decide
example : decomposeTime 0 sampleEvent.endDateTime = ⟨10, 0⟩ := by decide

/-- A filled form with attendee list `["a@x.com"]` and reminder list
`[10]`. -/
def sampleForm : EventModal.FormData :=
  { title := ""
    description := ""
    date := none
    startTime := none
    endTime := none
    location := ""
    attendees := ["a@x.com"]
    reminders := [10] }

/-- A concrete lead record. -/
def sampleLead : LeadsPage.Lead :=
  { id := "l1"
    name := "Ann"
    primaryEmail := "ann@x.com"
    primaryPhone := "123"
    status := "New"
    source := "Web"
    propertyType := "Flat"
    budgetRange := "0-1"
    assignedAgent := "agent1"
    leadScore := LeadsPage.LeadScore.high
    createdAt := 0 }

/-- The filter state with no active filter. -/
def emptyFilters : LeadsPage.LeadFilters :=
  ⟨none, none, none, none, none, none, none⟩

/-! ### Claims -/

/-- C1: for every connector state whose `isInitialized` flag is set,
`initializeGoogleAPI()` resolves immediately without starting the
script-load / auth-init sequence and leaves the state unchanged, so a
second call after it behaves identically: the composition of two calls
equals one. -/
theorem C1_initialize_idempotent (env : GoogleCalendar.GapiEnv)
    (s : GoogleCalendar.ConnectorState) (h : s.isInitialized = true) :
    GoogleCalendar.initializeGoogleAPI env s = ⟨Except.ok (), s, false⟩ ∧
    GoogleCalendar.initializeGoogleAPI env
        (GoogleCalendar.initializeGoogleAPI env s).state
      = ⟨Except.ok (), s, false⟩ := by
  constructor <;> simp [GoogleCalendar.initializeGoogleAPI, h]

/-- Witness for C1 at the already-initialized state. -/
theorem C1_witness :
    GoogleCalendar.initializeGoogleAPI ⟨true, true, true, some true⟩ ⟨true⟩
      = ⟨Except.ok (), ⟨true⟩, false⟩ :=
  (C1_initialize_idempotent ⟨true, true, true, some true⟩ ⟨true⟩ rfl).1

/-- C2: `signIn()` never rejects — it resolves `true` exactly when the
`try` body resolved with an authenticated session, and every failure of
the body (initialization rejection or consent-flow rejection) is caught
and mapped to `false` with the state it failed in. -/
theorem C2_signIn_never_rejects (env : GoogleCalendar.GapiEnv)
    (s : GoogleCalendar.ConnectorState) :
    ((GoogleCalendar.signIn env s).1 = true ↔
      GoogleCalendar.signInAttempt env s
        = Except.ok (true, (GoogleCalendar.signIn env s).2)) ∧
    (∀ e s1, GoogleCalendar.signInAttempt env s = Except.error (e, s1) →
      GoogleCalendar.signIn env s = (false, s1)) := by
  constructor
  · cases hA : GoogleCalendar.signInAttempt env s with
    | ok r =>
      cases r with
      | mk b s1 => cases b <;> simp [GoogleCalendar.signIn, hA]
    | error p =>
      cases p with
      | mk e s1 => simp [GoogleCalendar.signIn, hA]
  · intro e s1 hA
    simp [GoogleCalendar.signIn, hA]

/-- Witness for C2: consent denied (`signInOutcome = none`) resolves to
`false` rather than rejecting. -/
theorem C2_witness :
    GoogleCalendar.signIn ⟨true, true, false, none⟩ ⟨false⟩ = (false, ⟨true⟩) :=
  (C2_signIn_never_rejects ⟨true, true, false, none⟩ ⟨false⟩).2
    GoogleCalendar.SignInError.authRejected ⟨true⟩ rfl

/-- C6: submitting while `isGoogleConnected` is `false` triggers the
sign-in flow and returns: no provider call, no callback, the form state
untouched, the dialog still open. -/
theorem C6_not_connected_noop (form : EventModal.FormData)
    (event : Option EventModal.CalendarEvent) (tz : Int) (leadId : Option String)
    (provider : Except Unit GoogleCalendar.ProviderEvent) (now : Int) :
    EventModal.handleSubmit false form event tz leadId provider now
      = ⟨true, none, none, form, true⟩ :=
  rfl

/-- C7: `isSignedIn()` is `false` for every environment while the
`isInitialized` flag is unset — the auth instance's live flag is never
consulted — and reflects that live flag once the flag is set. -/
theorem C7_isSignedIn_gate (s : GoogleCalendar.ConnectorState) :
    (s.isInitialized = false →
      ∀ env : GoogleCalendar.GapiEnv, GoogleCalendar.isSignedIn env s = false) ∧
    (s.isInitialized = true →
      ∀ env : GoogleCalendar.GapiEnv,
        GoogleCalendar.isSignedIn env s = env.authSignedIn) := by
  constructor <;> intro h env <;> simp [GoogleCalendar.isSignedIn, h]

/-- Witness for C7: uninitialized state, environment whose live session
flag is `true` — the query still answers `false`. -/
theorem C7_witness :
    GoogleCalendar.isSignedIn ⟨true, true, true, some true⟩ ⟨false⟩ = false :=
  (C7_isSignedIn_gate ⟨false⟩).1 rfl ⟨true, true, true, some true⟩

/-- C3 counterexample: the claim asserts that recomposing under a
runtime zone different from UTC yields a different instant; but for the
stored event starting `2024-06-01T09:00:00Z`, the zone UTC+01:00
(offset 60) recomposes both instants identically — the date field is
the UTC date while the time fields are local, so the round trip is
exact whenever the instant's local calendar date equals its UTC
date. -/
theorem C3_counterexample :
    (60 : Int) ≠ 0 ∧
    (EventModal.eventData 60 (EventModal.populateFormFromEvent 60 sampleEvent)).start.dateTime
      = some sampleEvent.startDateTime ∧
    (EventModal.eventData 60 (EventModal.populateFormFromEvent 60 sampleEvent)).end_.dateTime
      = some sampleEvent.endDateTime := by
  refine ⟨by decide, by decide, by decide⟩

/-- C3 (amended): for the stored event (start `2024-06-01T09:00:00Z`,
end `2024-06-01T10:00:00Z`), decomposing into the form's fields and
recomposing on submit yields the identical instants when the runtime
zone is UTC; and for every runtime zone offset, each recomposed instant
is identical exactly when the instant's local day number
(`⌊(t + offset·60) / 86400⌋`) equals its UTC day number — in
particular still identical under UTC+01:00 (offset 60), and one full
day late under UTC−11:00 (offset −660), where both local days fall on
2024-05-31. -/
theorem C3_roundtrip_zone_dependence :
    (∀ tz : Int,
      (EventModal.eventData tz (EventModal.populateFormFromEvent tz sampleEvent)).start.dateTime
          = some sampleEvent.startDateTime ↔
        Int.fdiv (sampleEvent.startDateTime + tz * 60) secPerDay
          = Int.fdiv sampleEvent.startDateTime secPerDay) ∧
    (∀ tz : Int,
      (EventModal.eventData tz (EventModal.populateFormFromEvent tz sampleEvent)).end_.dateTime
          = some sampleEvent.endDateTime ↔
        Int.fdiv (sampleEvent.endDateTime + tz * 60) secPerDay
          = Int.fdiv sampleEvent.endDateTime secPerDay) ∧
    (EventModal.eventData 0 (EventModal.populateFormFromEvent 0 sampleEvent)).start.dateTime
      = some sampleEvent.startDateTime ∧
    (EventModal.eventData 0 (EventModal.populateFormFromEvent 0 sampleEvent)).end_.dateTime
      = some sampleEvent.endDateTime ∧
    (EventModal.eventData 60 (EventModal.populateFormFromEvent 60 sampleEvent)).start.dateTime
      = some sampleEvent.startDateTime ∧
    (EventModal.eventData (-660) (EventModal.populateFormFromEvent (-660) sampleEvent)).start.dateTime
      = some (sampleEvent.startDateTime + 86400) ∧
    (EventModal.eventData (-660) (EventModal.populateFormFromEvent (-660) sampleEvent)).start.dateTime
      ≠ some sampleEvent.startDateTime ∧
    (EventModal.eventData (-660) (EventModal.populateFormFromEvent (-660) sampleEvent)).end_.dateTime
      = some (sampleEvent.endDateTime + 86400) ∧
    (EventModal.eventData (-660) (EventModal.populateFormFromEvent (-660) sampleEvent)).end_.dateTime
      ≠ some sampleEvent.endDateTime := by
  have hem : ∀ x y : Int, Int.emod x y = x % y := fun _ _ => rfl
  have hD : daysFromCivil (decomposeDate (1717232400 : Int)) = 19875 := by decide
  refine ⟨?_, ?_, by decide, by decide, by decide, by decide, by decide, by decide, by decide⟩
  · intro tz
    have hred : (EventModal.eventData tz
          (EventModal.populateFormFromEvent tz sampleEvent)).start.dateTime
        = some (recomposeDateTime tz (decomposeDate 1717232400)
            (decomposeTime tz 1717232400)) := rfl
    have hlit : sampleEvent.startDateTime = 1717232400 := rfl
    rw [hred, hlit, Option.some.injEq]
    have hQ : Int.fdiv (1717232400 : Int) 86400 = 19875 := by decide
    simp only [recomposeDateTime, decomposeTime, secPerDay, hD]
    rw [hQ, Int.fdiv_eq_ediv _ (by norm_num)]
    simp only [hem]
    omega
  · intro tz
    have hred : (EventModal.eventData tz
          (EventModal.populateFormFromEvent tz sampleEvent)).end_.dateTime
        = some (recomposeDateTime tz (decomposeDate 1717232400)
            (decomposeTime tz 1717236000)) := rfl
    have hlit : sampleEvent.endDateTime = 1717236000 := rfl
    rw [hred, hlit, Option.some.injEq]
    have hQ : Int.fdiv (1717236000 : Int) 86400 = 19875 := by decide
    simp only [recomposeDateTime, decomposeTime, secPerDay, hD]
    rw [hQ, Int.fdiv_eq_ediv _ (by norm_num)]
    simp only [hem]
    omega

/-- C4: the payload built on submit maps each attendee email to an
`{email}` object and each checked reminder offset `m` to exactly one
override `{method: "popup", minutes: m}` under `useDefault := false`;
in particular attendees `["a@x.com"]` with reminders `[10]` give
attendees `[{email: "a@x.com"}]` and exactly the one override
`{method: "popup", minutes: 10}`. -/
theorem C4_payload_attendees_reminders (tz : Int) (form : EventModal.FormData)
    (h1 : form.attendees = ["a@x.com"]) (h2 : form.reminders = [10]) :
    (EventModal.eventData tz form).attendees = [⟨"a@x.com"⟩] ∧
    (EventModal.eventData tz form).reminders = ⟨false, [⟨"popup", 10⟩]⟩ ∧
    ∀ g : EventModal.FormData,
      (EventModal.eventData tz g).reminders.useDefault = false ∧
      (EventModal.eventData tz g).reminders.overrides
        = g.reminders.map fun m => ⟨"popup", m⟩ := by
  refine ⟨?_, ?_, ?_⟩
  · simp [EventModal.eventData, h1]
  · simp [EventModal.eventData, h2]
  · intro g
    exact ⟨rfl, rfl⟩

/-- Witness for C4 at the concrete filled form. -/
theorem C4_witness :
    (EventModal.eventData 0 sampleForm).attendees = [⟨"a@x.com"⟩] ∧
    (EventModal.eventData 0 sampleForm).reminders = ⟨false, [⟨"popup", 10⟩]⟩ :=
  ⟨(C4_payload_attendees_reminders 0 sampleForm rfl rfl).1,
    (C4_payload_attendees_reminders 0 sampleForm rfl rfl).2.1⟩

/-- C5: with no arguments, `getEvents` sends a request whose `timeMin`
is the current time, with deleted events excluded, recurring events
expanded to single instances, ordered by start time, against the
primary calendar; and a response whose `items` field is absent or empty
resolves to the empty list. -/
theorem C5_getEvents_defaults (now : String) :
    GoogleCalendar.getEventsRequest now none none
      = ⟨"primary", now, none, false, true, "startTime"⟩ ∧
    ∀ resp : GoogleCalendar.EventsListResponse,
      resp.items = none ∨ resp.items = some [] →
        GoogleCalendar.getEventsResult resp = [] := by
  refine ⟨rfl, ?_⟩
  intro resp h
  cases h with
  | inl h => simp [GoogleCalendar.getEventsResult, h]
  | inr h => simp [GoogleCalendar.getEventsResult, h]

/-- Witness for C5: an absent `items` field resolves to `[]`. -/
theorem C5_witness : GoogleCalendar.getEventsResult ⟨none⟩ = [] :=
  (C5_getEvents_defaults "2024-01-01T00:00:00.000Z").2 ⟨none⟩ (Or.inl rfl)

/-- C8: for every offset `m` of the fixed reminder set and every
current reminder list, toggling `m` twice yields a list with exactly
the original membership, and a single toggle of `m` leaves the
membership of every other offset unchanged. -/
theorem C8_toggleReminder_involutive (m : Int) (l : List Int)
    (_hm5 : m ∈ ([5, 10, 15, 30, 60] : List Int)) :
    (∀ k : Int, k ∈ EventModal.toggleReminder m (EventModal.toggleReminder m l) ↔ k ∈ l) ∧
    (∀ k : Int, k ≠ m → (k ∈ EventModal.toggleReminder m l ↔ k ∈ l)) := by
  constructor
  · intro k
    by_cases hm : m ∈ l
    · have h1 : EventModal.toggleReminder m l = l.filter fun r => r != m := by
        simp [EventModal.toggleReminder, List.contains, List.elem_iff, hm]
      have h2 : EventModal.toggleReminder m (l.filter fun r => r != m)
          = (l.filter fun r => r != m) ++ [m] := by
        simp [EventModal.toggleReminder, List.contains, List.elem_iff, List.mem_filter]
      rw [h1, h2]
      simp only [List.mem_append, List.mem_filter, List.mem_singleton, bne_iff_ne]
      constructor
      · rintro (⟨hk, _⟩ | rfl)
        · exact hk
        · exact hm
      · intro hk
        by_cases hkm : k = m
        · exact Or.inr hkm
        · exact Or.inl ⟨hk, hkm⟩
    · have h1 : EventModal.toggleReminder m l = l ++ [m] := by
        simp [EventModal.toggleReminder, List.contains, List.elem_iff, hm]
      have h2 : EventModal.toggleReminder m (l ++ [m])
          = (l ++ [m]).filter fun r => r != m := by
        simp [EventModal.toggleReminder, List.contains, List.elem_iff]
      rw [h1, h2]
      simp only [List.mem_filter, List.mem_append, List.mem_singleton, bne_iff_ne]
      constructor
      · rintro ⟨hk | rfl, hne⟩
        · exact hk
        · exact absurd rfl hne
      · intro hk
        exact ⟨Or.inl hk, fun h => hm (h ▸ hk)⟩
  · intro k hk
    by_cases hm : m ∈ l
    · simp [EventModal.toggleReminder, List.contains, List.elem_iff, hm,
        List.mem_filter, hk]
    · simp [EventModal.toggleReminder, List.contains, List.elem_iff, hm, hk]

/-- Witness for C8: toggling 5 on a list holding 10 keeps 10's
membership. -/
theorem C8_witness :
    (10 : Int) ∈ EventModal.toggleReminder 5 [10] ↔ (10 : Int) ∈ ([10] : List Int) :=
  (C8_toggleReminder_involutive 5 [10] (by decide)).2 10 (by decide)

/-- C9: the disconnect handler answers 401 `Authentication required`
when the header is missing or not `Bearer `-prefixed, 401
`Invalid token` when verification of the extracted token fails, and the
success message when it verifies — and in every case it performs
neither provider-token revocation nor account-linkage modification. -/
theorem C9_disconnect_validation_only (v : String → Bool) (h : Option String) :
    (h = none →
      DisconnectRoute.POST v h = (⟨401, "Authentication required"⟩, ⟨false, false⟩)) ∧
    (∀ s, h = some s → strStartsWith s "Bearer " = false →
      DisconnectRoute.POST v h = (⟨401, "Authentication required"⟩, ⟨false, false⟩)) ∧
    (∀ s, h = some s → strStartsWith s "Bearer " = true → v (s.drop 7) = false →
      DisconnectRoute.POST v h = (⟨401, "Invalid token"⟩, ⟨false, false⟩)) ∧
    (∀ s, h = some s → strStartsWith s "Bearer " = true → v (s.drop 7) = true →
      DisconnectRoute.POST v h
        = (⟨200, "Google account disconnected successfully"⟩, ⟨false, false⟩)) ∧
    (DisconnectRoute.POST v h).2 = ⟨false, false⟩ := by
  refine ⟨?_, ?_, ?_, ?_, ?_⟩
  · intro hn
    simp [DisconnectRoute.POST, hn]
  · intro s hs hpre
    simp [DisconnectRoute.POST, hs, hpre]
  · intro s hs hpre hv
    simp [DisconnectRoute.POST, hs, hpre, hv]
  · intro s hs hpre hv
    simp [DisconnectRoute.POST, hs, hpre, hv]
  · cases h with
    | none => simp [DisconnectRoute.POST]
    | some s =>
      by_cases hpre : strStartsWith s "Bearer " <;>
        by_cases hv : v (s.drop 7) <;>
          simp [DisconnectRoute.POST, hpre, hv]

/-- Witness for C9: a verifying bearer token gets the success response;
a missing header gets 401. -/
theorem C9_witness :
    DisconnectRoute.POST (fun t => t == "tok") (some "Bearer tok")
      = (⟨200, "Google account disconnected successfully"⟩, ⟨false, false⟩) ∧
    DisconnectRoute.POST (fun t => t == "tok") none
      = (⟨401, "Authentication required"⟩, ⟨false, false⟩) :=
  ⟨(C9_disconnect_validation_only (fun t => t == "tok") (some "Bearer tok")).2.2.2.1
      "Bearer tok" rfl (by decide) (by decide),
    (C9_disconnect_validation_only (fun t => t == "tok") none).1 rfl⟩

/-- C10: every lead the page displays came through the permission
filter and satisfies every active filter predicate — for every
permission-filter function, user, filter state and sort option, each
member of `filteredAndSortedLeads` is a member of `userFilteredLeads`
and passes `matchesFilters`. -/
theorem C10_displayed_within_permission {U : Type}
    (filterLeadsForUser : List LeadsPage.Lead → U → List LeadsPage.Lead)
    (leads : List LeadsPage.Lead) (user : U) (filters : LeadsPage.LeadFilters)
    (sortBy : LeadsPage.SortOption) (l : LeadsPage.Lead)
    (h : l ∈ LeadsPage.filteredAndSortedLeads filterLeadsForUser leads user filters sortBy) :
    l ∈ LeadsPage.userFilteredLeads filterLeadsForUser leads user ∧
    LeadsPage.matchesFilters filters l = true := by
  unfold LeadsPage.filteredAndSortedLeads at h
  rw [List.mem_mergeSort] at h
  exact ⟨(List.mem_filter.mp h).1, (List.mem_filter.mp h).2⟩

/-- Witness for C10 at a singleton lead list with the identity
permission filter and no active filters. -/
theorem C10_witness :
    sampleLead ∈ LeadsPage.userFilteredLeads (fun ls (_ : Unit) => ls) [sampleLead] () ∧
    LeadsPage.matchesFilters emptyFilters sampleLead = true :=
  C10_displayed_within_permission (fun ls (_ : Unit) => ls) [sampleLead] ()
    emptyFilters LeadsPage.SortOption.createdDesc sampleLead
    (by simp [LeadsPage.filteredAndSortedLeads, LeadsPage.userFilteredLeads,
      LeadsPage.matchesFilters, emptyFilters, List.mergeSort])
